import Mathlib

/-!
Shallow embedding of the website-monitor change-detection engine
(`monitor.py` and its companions) and proofs of the specified properties.

The embedding follows the Python source:
* `get_text_snapshot` — whitespace normalization of the page text
  (`" ".join(txt.split())`);
* `evaluate` — the marker containment checks of `check_one`
  (`[txt for txt in disappears_list if txt in snapshot]`);
* `should_alert` — the pure alert predicate from `test_monitor.py`;
* `processTarget` / `tick` — one target / one pass of `monitor_loop`,
  with the fetch result and the evidence-capture outcome supplied as
  oracles (they are the external, effectful collaborators);
* `check_one` — the crash-retry wrapper with its backoff schedule;
* `save_state_ops` / `MidState` — the temp-file-plus-rename persistence
  over a small filesystem model;
* `load_state` — state loading with the missing/corrupt-file fallback;
* `normalizeItem` — per-item config validation of `load_config`.
-/

deriving instance DecidableEq for Except

/-- One persisted observation for a target, as stored in the state file by
`check_one` (url and the two found-marker lists, plus diagnostics). -/
structure Observation where
  url : String
  timestamp : String
  found_disappears : List String
  found_appears : List String
  hash : String
  snippet : String
deriving Repr, DecidableEq

/-- One normalized configuration item: a monitored url with its two marker
lists (`search_text_disappears`, `search_text_appears`) and a note. -/
structure Target where
  url : String
  search_text_disappears : List String
  search_text_appears : List String
  note : String
deriving Repr, DecidableEq

/-- The in-memory persisted state: a map from url to the last observation,
modelled as an association list (first binding wins, as a Python dict). -/
abbrev StateMap : Type := List (String × Observation)

/-- `state.get(url)` — dictionary lookup. -/
def lookupState : StateMap → String → Option Observation
  | [], _ => none
  | (u, o) :: rest, q => if u = q then some o else lookupState rest q

/-- `state[url] = res` — dictionary update. -/
def insertState (s : StateMap) (u : String) (o : Observation) : StateMap :=
  (u, o) :: (s : List (String × Observation)).filter (fun e => e.fst ≠ u)

/-- Whitespace characters split on by Python's `str.split()` (ASCII part). -/
def isPySpace (c : Char) : Bool :=
  c = ' ' || c = '\t' || c = '\n' || c = '\r' || c = '\x0b' || c = '\x0c'

/-- Splits a character list into maximal runs of non-whitespace characters;
`acc` holds the (reversed) current run. -/
def wordsAux : List Char → List Char → List String
  | [], acc => if acc.isEmpty then [] else [String.mk acc.reverse]
  | c :: cs, acc =>
    if isPySpace c then
      (if acc.isEmpty then [] else [String.mk acc.reverse]) ++ wordsAux cs []
    else wordsAux cs (c :: acc)

/-- `txt.split()` — split on whitespace runs, dropping empty fields. -/
def pySplit (s : String) : List String :=
  wordsAux s.toList []

/-- `get_text_snapshot`: `" ".join(txt.split())` — the whitespace-normalized
visible text of the page. -/
def get_text_snapshot (txt : String) : String :=
  " ".intercalate (pySplit txt)

/-- Does the character list `needle` start at the head of `hay`? -/
def matchesAt : List Char → List Char → Bool
  | [], _ => true
  | _ :: _, [] => false
  | a :: as, b :: bs => (a == b) && matchesAt as bs

/-- Does `needle` occur contiguously anywhere inside `hay`? -/
def occursIn (needle : List Char) (hay : List Char) : Bool :=
  match hay with
  | [] => matchesAt needle []
  | _ :: cs => matchesAt needle hay || occursIn needle cs

/-- Python's `needle in hay` on strings: substring containment,
case-sensitive. -/
def strContains (hay needle : String) : Bool :=
  occursIn needle.toList hay.toList

/-- The snapshot evaluation inside `check_one`:
`found_disappears = [txt for txt in disappears_list if txt in snapshot]` and
likewise for `found_appears`. -/
def evaluate (snapshot : String) (item : Target) : List String × List String :=
  (item.search_text_disappears.filter (fun txt => strContains snapshot txt),
   item.search_text_appears.filter (fun txt => strContains snapshot txt))

/-- The pure alert predicate of `test_monitor.py` (`should_alert`), identical
to the inline logic of `monitor_loop`. -/
def should_alert (disappears_list appears_list prev_found_disappears
    prev_found_appears curr_found_disappears curr_found_appears :
    List String) : Bool :=
  let disappears_satisfied :=
    if disappears_list.isEmpty then true
    else decide (0 < prev_found_disappears.length) &&
         decide (curr_found_disappears.length = 0)
  let appears_satisfied :=
    if appears_list.isEmpty then true
    else decide (prev_found_appears.length = 0) &&
         decide (0 < curr_found_appears.length)
  disappears_satisfied && appears_satisfied

/-- The exception classes that the evidence-capture `try` block of
`monitor_loop` distinguishes: the four caught classes
(`OSError`, `asyncio.TimeoutError`, `PlaywrightTimeoutError`,
`PlaywrightError`) and any other exception. -/
inductive ExcClass
  | osError
  | asyncioTimeout
  | playwrightTimeout
  | playwrightError
  | otherExc
deriving Repr, DecidableEq

/-- Whether the evidence-capture `except` clause of `monitor_loop` catches an
exception of this class (`except (OSError, asyncio.TimeoutError,
PlaywrightTimeoutError, PlaywrightError)`). -/
def evidenceCaught : ExcClass → Bool
  | .otherExc => false
  | _ => true

/-- Outcome of the best-effort evidence capture on an alert: everything
succeeded, `os.makedirs("/data/screens", ...)` raised (it sits before the
`try`), or the screenshot block raised an exception of some class. -/
inductive EvidenceOutcome
  | ok
  | makedirsFail
  | screenshotFail (c : ExcClass)
deriving Repr, DecidableEq

/-- Whether control reaches the code after the screenshot block: only a
`makedirs` failure or an uncaught screenshot exception escapes (to the
per-target handler, aborting this target). -/
def evidenceSurvives : EvidenceOutcome → Bool
  | .ok => true
  | .makedirsFail => false
  | .screenshotFail c => evidenceCaught c

/-- Failure classes distinguished by the per-target `except` clauses of
`monitor_loop`: crash-pattern `PlaywrightError`, other `PlaywrightError`,
timeouts, transport/OS errors, and anything else. -/
inductive FailClass
  | crash
  | playwright
  | timeout
  | transport
  | unknown
deriving Repr, DecidableEq

/-- What `check_one` produced for a target on this poll: an observation, or
an exception of the given class raised past the retry wrapper. -/
inductive FetchResult
  | success (res : Observation) (ev : EvidenceOutcome)
  | failure (c : FailClass)
deriving Repr, DecidableEq

/-- Everything one iteration of the per-target body of `monitor_loop` did:
the state map afterwards, whether the alert condition fired, whether the
alert notification was sent, and the `save_state` calls made (each recorded
as the map written). -/
structure StepOut where
  state : StateMap
  alert : Bool
  notified : Bool
  writes : List StateMap
deriving Repr, DecidableEq

/-- The per-target body of `monitor_loop` (the `try` suite together with its
`except` clauses), given the fetch result for this target. Mirrors the
source: a fetch failure is logged and skipped; a first observation is a
baseline write; otherwise the alert decision runs only under `changed`, the
evidence capture and the notification only under `alert`, and the state is
updated and saved at the end of the `changed` branch. -/
def processTarget (state : StateMap) (item : Target) (fr : FetchResult) :
    StepOut :=
  match fr with
  | .failure _ => ⟨state, false, false, []⟩
  | .success res ev =>
    match lookupState state item.url with
    | none =>
      let s' := insertState state item.url res
      ⟨s', false, false, [s']⟩
    | some prev =>
      let changed :=
        decide (prev.found_disappears ≠ res.found_disappears) ||
        decide (prev.found_appears ≠ res.found_appears)
      if changed then
        let disappears_satisfied :=
          if item.search_text_disappears.isEmpty then true
          else decide (0 < prev.found_disappears.length) &&
               decide (res.found_disappears.length = 0)
        let appears_satisfied :=
          if item.search_text_appears.isEmpty then true
          else decide (prev.found_appears.length = 0) &&
               decide (0 < res.found_appears.length)
        let alert := disappears_satisfied && appears_satisfied
        if alert && !(evidenceSurvives ev) then
          -- the exception from the evidence block reaches the per-target
          -- handler: no notification, no state update for this target
          ⟨state, alert, false, []⟩
        else
          let s' := insertState state item.url res
          ⟨s', alert, alert, [s']⟩
      else ⟨state, false, false, []⟩

/-- Everything one pass of the `for item in config` loop did. -/
structure TickOut where
  state : StateMap
  processed : List String
  notifiedUrls : List String
  writes : List StateMap
deriving Repr, DecidableEq

/-- One full pass of `monitor_loop` over the configured targets, in order,
threading the state; the fetch oracle `f` stands for `check_one`'s outcome
on each target this tick. -/
def tick (state : StateMap) (cfg : List Target) (f : Target → FetchResult) :
    TickOut :=
  match cfg with
  | [] => ⟨state, [], [], []⟩
  | item :: rest =>
    let out := processTarget state item (f item)
    let t := tick out.state rest f
    ⟨t.state, item.url :: t.processed,
     (if out.notified then [item.url] else []) ++ t.notifiedUrls,
     out.writes ++ t.writes⟩

/-- `max_retries` of `check_one`. -/
def max_retries : Nat := 3

/-- What one fetch attempt inside `check_one` does: returns an observation,
raises a crash-pattern `PlaywrightError` ("Target page, context or browser
has been closed" / "SIGTRAP"), or raises some other failure. -/
inductive AttemptResult
  | ok (o : Observation)
  | crash
  | fail (c : FailClass)
deriving Repr, DecidableEq

/-- `check_one`'s retry logic: attempt `a retry_count`; on a crash-pattern
error with `retry_count < max_retries`, sleep `2 ^ retry_count` seconds and
recurse with `retry_count + 1`, else re-raise. Returns the final outcome and
the list of backoff sleeps performed, in order. -/
def check_one (a : Nat → AttemptResult) (retry_count : Nat) :
    Except FailClass Observation × List Nat :=
  match a retry_count with
  | .ok o => (.ok o, [])
  | .fail c => (.error c, [])
  | .crash =>
    if h : retry_count < max_retries then
      let rest := check_one a (retry_count + 1)
      (rest.1, 2 ^ retry_count :: rest.2)
    else (.error .crash, [])
termination_by max_retries - retry_count
decreasing_by simp [max_retries] at *; omega

/-- A flat filesystem: an association list from path to file content
(first binding wins). -/
abbrev Disk : Type := List (String × String)

/-- Content of the file at `q`, if it exists. -/
def getFile : Disk → String → Option String
  | [], _ => none
  | (p, c) :: rest, q => if p = q then some c else getFile rest q

/-- Remove the file at `p` (no-op if absent). -/
def removeFile (d : Disk) (p : String) : Disk :=
  (d : List (String × String)).filter (fun e => e.fst ≠ p)

/-- Create or overwrite the file at `p` with content `c`. -/
def setFile (d : Disk) (p c : String) : Disk :=
  (p, c) :: removeFile d p

/-- `os.replace(src, dst)`: atomically move `src` onto `dst`, overwriting. -/
def renameFile (d : Disk) (src dst : String) : Disk :=
  match getFile d src with
  | none => d
  | some c => setFile (removeFile d src) dst c

/-- A filesystem operation issued by `save_state`: a (non-atomic) whole-file
write, or an atomic rename. -/
inductive FsOp
  | write (path content : String)
  | rename (src dst : String)
deriving Repr, DecidableEq

/-- Effect of one completed operation. -/
def applyOp (d : Disk) : FsOp → Disk
  | .write p c => setFile d p c
  | .rename src dst => renameFile d src dst

/-- `save_state(state)`: write the serialized state `j` to the sibling path
`STATE_FILE + ".tmp"`, then `os.replace` it onto `STATE_FILE`. `stateFile`
is the configured `STATE_FILE` path. -/
def save_state_ops (stateFile j : String) : List FsOp :=
  [FsOp.write (stateFile ++ ".tmp") j,
   FsOp.rename (stateFile ++ ".tmp") stateFile]

/-- `MidState d ops d'` holds when `d'` is a disk observable at some moment
while executing `ops` from `d`: before any remaining operation, in the middle
of a non-atomic file write (any prefix of the content is on disk), or any
moment of the rest after completing the first operation. A rename is atomic
and has no intermediate disk. -/
inductive MidState : Disk → List FsOp → Disk → Prop
  | before (d : Disk) (ops : List FsOp) : MidState d ops d
  | partialWrite (d : Disk) (p c t : String) (rest : List FsOp)
      (h : t.isPrefixOf c = true) :
      MidState d (FsOp.write p c :: rest) (setFile d p t)
  | step (d : Disk) (op : FsOp) (rest : List FsOp) (d' : Disk)
      (h : MidState (applyOp d op) rest d') : MidState d (op :: rest) d'

/-- `load_state()`: read and JSON-parse `STATE_FILE`; a missing file
(`FileNotFoundError`) or unparseable content (`json.JSONDecodeError`) yields
the empty dict. The parser stands for `json.load`. -/
def load_state (d : Disk) (parse : String → Option StateMap)
    (stateFile : String) : StateMap :=
  match getFile d stateFile with
  | none => ([] : List (String × Observation))
  | some content =>
    match parse content with
    | none => ([] : List (String × Observation))
    | some st => st

/-- A YAML scalar-or-list value, as `search_text*` keys may hold either a
single string or a list of strings. -/
inductive YamlVal
  | str (s : String)
  | list (l : List String)
deriving Repr, DecidableEq

/-- `search_list = search_text if isinstance(search_text, list) else
[search_text]`. -/
def toTextList : YamlVal → List String
  | .str s => [s]
  | .list l => l

/-- One raw config item as read from `config/urls.yaml`: each key may be
present or absent. -/
structure RawItem where
  url : Option String
  search_text : Option YamlVal
  mode : Option String
  search_text_disappears : Option YamlVal
  search_text_appears : Option YamlVal
  note : Option String
deriving Repr, DecidableEq

/-- Per-item validation and normalization of `load_config`: require `url`;
require the old format (`search_text` + `mode`) or the new format
(`search_text_disappears`/`search_text_appears`); when the old format is
present, validate `mode` and derive both new-format lists from
`search_text`/`mode`; otherwise normalize the new-format keys to lists;
finally require at least one non-empty list. -/
def normalizeItem (it : RawItem) : Except String Target :=
  if it.url.isNone then .error "url required"
  else
    let u := it.url.getD ""
    let has_old := it.search_text.isSome && it.mode.isSome
    let has_new := it.search_text_disappears.isSome ||
                   it.search_text_appears.isSome
    if !has_old && !has_new then
      .error "need (search_text + mode) or (search_text_disappears/search_text_appears)"
    else if has_old then
      let m := it.mode.getD ""
      if m != "appears" && m != "disappears" then
        .error "mode must be appears or disappears"
      else
        let search_list := toTextList (it.search_text.getD (.list []))
        let item :=
          if m = "disappears" then
            Target.mk u search_list [] (it.note.getD "")
          else
            Target.mk u [] search_list (it.note.getD "")
        if item.search_text_disappears.isEmpty &&
           item.search_text_appears.isEmpty then
          .error "at least one search_text_disappears or search_text_appears required"
        else .ok item
    else
      let d := match it.search_text_disappears with
               | some v => toTextList v
               | none => []
      let a := match it.search_text_appears with
               | some v => toTextList v
               | none => []
      if d.isEmpty && a.isEmpty then
        .error "at least one search_text_disappears or search_text_appears required"
      else .ok (Target.mk u d a (it.note.getD ""))


/-! ## Supporting lemmas -/

/-- Propositional characterization of the `should_alert` predicate. -/
theorem should_alert_iff (d a pfd pfa cfd cfa : List String) :
    should_alert d a pfd pfa cfd cfa = true ↔
      ((d = [] ∨ (pfd ≠ [] ∧ cfd = [])) ∧
       (a = [] ∨ (pfa = [] ∧ cfa ≠ []))) := by
  unfold should_alert
  rcases d with _ | ⟨x, xs⟩ <;> rcases a with _ | ⟨y, ys⟩ <;>
    simp [List.length_eq_zero, List.length_pos]

/-- The alert flag computed by the per-target body equals the change test
conjoined with the `should_alert` predicate. -/
theorem processTarget_alert (state : StateMap) (item : Target)
    (res prev : Observation) (ev : EvidenceOutcome)
    (h : lookupState state item.url = some prev) :
    (processTarget state item (.success res ev)).alert =
      ((decide (prev.found_disappears ≠ res.found_disappears) ||
        decide (prev.found_appears ≠ res.found_appears)) &&
       should_alert item.search_text_disappears item.search_text_appears
         prev.found_disappears prev.found_appears
         res.found_disappears res.found_appears) := by
  simp only [processTarget, h, should_alert]
  split
  · next hc =>
    rw [hc, Bool.true_and]
    split_ifs <;> rfl
  · next hc =>
    rw [Bool.not_eq_true] at hc
    rw [hc, Bool.false_and]

/-! ## C1 — alert fires iff both conditions hold and the pair changed -/

/-- C1: for a target with a previous persisted observation, the alert fires
iff (1) the disappear-condition holds (vacuous when `search_text_disappears`
is empty, else previous `found_disappears` non-empty and current empty),
(2) the appear-condition holds (vacuous when `search_text_appears` is empty,
else previous `found_appears` empty and current non-empty), and (3) the
found-marker pair differs from the previous observation; in particular an
exactly equal pair never alerts. -/
theorem alert_fires_iff_conditions_and_change (state : StateMap)
    (item : Target) (res prev : Observation) (ev : EvidenceOutcome)
    (h : lookupState state item.url = some prev) :
    ((processTarget state item (.success res ev)).alert = true ↔
      ((item.search_text_disappears = [] ∨
        (prev.found_disappears ≠ [] ∧ res.found_disappears = [])) ∧
       (item.search_text_appears = [] ∨
        (prev.found_appears = [] ∧ res.found_appears ≠ [])) ∧
       (prev.found_disappears ≠ res.found_disappears ∨
        prev.found_appears ≠ res.found_appears))) ∧
    ((prev.found_disappears = res.found_disappears ∧
      prev.found_appears = res.found_appears) →
      (processTarget state item (.success res ev)).alert = false) := by
  have halert := processTarget_alert state item res prev ev h
  constructor
  · rw [halert]
    rw [Bool.and_eq_true, Bool.or_eq_true, decide_eq_true_eq, decide_eq_true_eq,
      should_alert_iff]
    tauto
  · rintro ⟨h1, h2⟩
    rw [halert, h1, h2]
    simp

/-- Witness for C1 at a concrete alerting transition. -/
theorem alert_fires_iff_conditions_and_change_witness :
    ((processTarget [("u", ⟨"u", "t1", ["X"], [], "h1", "s1"⟩)]
        ⟨"u", ["X"], ["Y"], "note"⟩
        (.success ⟨"u", "t2", [], ["Y"], "h2", "s2"⟩ .ok)).alert = true ↔
      ((["X"] = ([] : List String) ∨
        ((["X"] : List String) ≠ [] ∧ ([] : List String) = [])) ∧
       (["Y"] = ([] : List String) ∨
        (([] : List String) = [] ∧ (["Y"] : List String) ≠ [])) ∧
       ((["X"] : List String) ≠ [] ∨ ([] : List String) ≠ ["Y"]))) ∧
    (((["X"] : List String) = [] ∧ ([] : List String) = ["Y"]) →
      (processTarget [("u", ⟨"u", "t1", ["X"], [], "h1", "s1"⟩)]
        ⟨"u", ["X"], ["Y"], "note"⟩
        (.success ⟨"u", "t2", [], ["Y"], "h2", "s2"⟩ .ok)).alert = false) :=
  alert_fires_iff_conditions_and_change
    [("u", ⟨"u", "t1", ["X"], [], "h1", "s1"⟩)] ⟨"u", ["X"], ["Y"], "note"⟩
    ⟨"u", "t2", [], ["Y"], "h2", "s2"⟩ ⟨"u", "t1", ["X"], [], "h1", "s1"⟩
    .ok (by decide)

/-! ## C2 — first observation is a baseline write with no alert -/

/-- C2: when the persisted state holds no entry for the target's url, the
per-target body never alerts: it records the new observation as the baseline
(one `save_state` call) and ends processing of that target for the tick. -/
theorem first_observation_is_baseline (state : StateMap) (item : Target)
    (res : Observation) (ev : EvidenceOutcome)
    (h : lookupState state item.url = none) :
    processTarget state item (.success res ev) =
      ⟨insertState state item.url res, false, false,
       [insertState state item.url res]⟩ ∧
    lookupState (insertState state item.url res) item.url = some res := by
  constructor
  · simp [processTarget, h]
  · simp [insertState, lookupState]

/-- Witness for C2 on an empty state. -/
theorem first_observation_is_baseline_witness :
    processTarget [] ⟨"u", ["X"], [], "n"⟩
        (.success ⟨"u", "t1", ["X"], [], "h1", "s1"⟩ .ok) =
      ⟨insertState [] "u" ⟨"u", "t1", ["X"], [], "h1", "s1"⟩, false, false,
       [insertState [] "u" ⟨"u", "t1", ["X"], [], "h1", "s1"⟩]⟩ ∧
    lookupState (insertState [] "u" ⟨"u", "t1", ["X"], [], "h1", "s1"⟩) "u" =
      some ⟨"u", "t1", ["X"], [], "h1", "s1"⟩ :=
  first_observation_is_baseline [] ⟨"u", ["X"], [], "n"⟩ _ _ (by decide)

/-! ## C6 — the snapshot evaluator -/

/-- C6: for every raw page text and target, each returned list is the
subsequence of the configured markers (declared order preserved) whose text
occurs case-sensitively in the whitespace-normalized snapshot; the result
depends only on the snapshot and the marker lists; for a snapshot with `B`
textually before `A` and markers `["A", "B"]` the result is `["A", "B"]`;
containment is case-sensitive. -/
theorem evaluate_order_and_containment (raw : String) (item : Target) :
    List.Sublist (evaluate (get_text_snapshot raw) item).1
      item.search_text_disappears ∧
    List.Sublist (evaluate (get_text_snapshot raw) item).2
      item.search_text_appears ∧
    (∀ txt, txt ∈ (evaluate (get_text_snapshot raw) item).1 ↔
      (txt ∈ item.search_text_disappears ∧
       strContains (get_text_snapshot raw) txt = true)) ∧
    (∀ txt, txt ∈ (evaluate (get_text_snapshot raw) item).2 ↔
      (txt ∈ item.search_text_appears ∧
       strContains (get_text_snapshot raw) txt = true)) ∧
    (∀ (s u v n m : String) (dl al : List String),
      evaluate s (Target.mk u dl al n) = evaluate s (Target.mk v dl al m)) ∧
    (evaluate (get_text_snapshot "B ticket then A")
      ⟨"u", ["A", "B"], [], ""⟩).1 = ["A", "B"] ∧
    (evaluate "A x" ⟨"u", ["a"], [], ""⟩).1 = [] := by
  refine ⟨List.filter_sublist _, List.filter_sublist _, ?_, ?_,
    fun s u v n m dl al => rfl, by decide, by decide⟩
  · intro txt; simp [evaluate, List.mem_filter]
  · intro txt; simp [evaluate, List.mem_filter]

/-! ## C7 — per-target fetch failures are isolated -/

/-- Is this fetch outcome a failure of some class? -/
def FetchResult.isFailure : FetchResult → Bool
  | .failure _ => true
  | .success _ _ => false

/-- Every configured target is processed by a tick, in configured order. -/
theorem tick_processed (cfg : List Target) :
    ∀ (state : StateMap) (f : Target → FetchResult),
      (tick state cfg f).processed = cfg.map Target.url := by
  induction cfg with
  | nil => intro state f; rfl
  | cons item rest ih =>
    intro state f
    simp [tick, ih]

/-- A tick all of whose fetches fail leaves the state untouched, saves
nothing and notifies nobody. -/
theorem tick_all_failures (cfg : List Target) :
    ∀ (state : StateMap) (f : Target → FetchResult),
      (∀ t ∈ cfg, (f t).isFailure = true) →
      (tick state cfg f).state = state ∧ (tick state cfg f).writes = [] ∧
      (tick state cfg f).notifiedUrls = [] := by
  induction cfg with
  | nil => intro state f _; exact ⟨rfl, rfl, rfl⟩
  | cons item rest ih =>
    intro state f hall
    have hitem : (f item).isFailure = true := hall item (by simp)
    have hstep : processTarget state item (f item) = ⟨state, false, false, []⟩ := by
      rcases hf : f item with _ | c
      · rw [hf] at hitem; simp [FetchResult.isFailure] at hitem
      · rfl
    have hrest := ih state f (fun t ht => hall t (by simp [ht]))
    simp [tick, hstep, hrest.1, hrest.2.1, hrest.2.2]

/-- C7: a per-target fetch failure of any class is absorbed: the per-target
body leaves the state map untouched, sends nothing and saves nothing, and
the tick still processes every remaining target; a tick whose fetches all
fail is a no-op on the persisted state. -/
theorem per_target_failure_isolated (state : StateMap) (cfg : List Target)
    (f : Target → FetchResult) (item : Target) (c : FailClass) :
    processTarget state item (.failure c) = ⟨state, false, false, []⟩ ∧
    (tick state cfg f).processed = cfg.map Target.url ∧
    ((∀ t ∈ cfg, (f t).isFailure = true) →
      (tick state cfg f).state = state ∧ (tick state cfg f).writes = [] ∧
      (tick state cfg f).notifiedUrls = []) :=
  ⟨rfl, tick_processed cfg state f, tick_all_failures cfg state f⟩

/-- Witness for C7: a two-target tick where both fetches time out. -/
theorem per_target_failure_isolated_witness :
    processTarget [("u", ⟨"u", "t1", ["X"], [], "h1", "s1"⟩)]
        ⟨"u", ["X"], [], "n"⟩ (.failure .timeout) =
      ⟨[("u", ⟨"u", "t1", ["X"], [], "h1", "s1"⟩)], false, false, []⟩ ∧
    (tick [("u", ⟨"u", "t1", ["X"], [], "h1", "s1"⟩)]
        [⟨"u", ["X"], [], "n"⟩, ⟨"v", [], ["Y"], "m"⟩]
        (fun _ => .failure .timeout)).processed =
      List.map Target.url [⟨"u", ["X"], [], "n"⟩, ⟨"v", [], ["Y"], "m"⟩] ∧
    ((∀ t ∈ [(⟨"u", ["X"], [], "n"⟩ : Target), ⟨"v", [], ["Y"], "m"⟩],
        ((fun _ => FetchResult.failure .timeout) t).isFailure = true) →
      (tick [("u", ⟨"u", "t1", ["X"], [], "h1", "s1"⟩)]
          [⟨"u", ["X"], [], "n"⟩, ⟨"v", [], ["Y"], "m"⟩]
          (fun _ => .failure .timeout)).state =
        [("u", ⟨"u", "t1", ["X"], [], "h1", "s1"⟩)] ∧
      (tick [("u", ⟨"u", "t1", ["X"], [], "h1", "s1"⟩)]
          [⟨"u", ["X"], [], "n"⟩, ⟨"v", [], ["Y"], "m"⟩]
          (fun _ => .failure .timeout)).writes = [] ∧
      (tick [("u", ⟨"u", "t1", ["X"], [], "h1", "s1"⟩)]
          [⟨"u", ["X"], [], "n"⟩, ⟨"v", [], ["Y"], "m"⟩]
          (fun _ => .failure .timeout)).notifiedUrls = []) :=
  per_target_failure_isolated
    [("u", ⟨"u", "t1", ["X"], [], "h1", "s1"⟩)]
    [⟨"u", ["X"], [], "n"⟩, ⟨"v", [], ["Y"], "m"⟩]
    (fun _ => .failure .timeout) ⟨"u", ["X"], [], "n"⟩ .timeout

/-! ## C3 — crash-class retry with exponential backoff -/

/-- The number of backoff sleeps never exceeds the remaining retry budget. -/
theorem check_one_sleeps_le (c : Nat → AttemptResult) :
    ∀ (n r : Nat), max_retries - r ≤ n →
      (check_one c r).2.length ≤ max_retries - r := by
  intro n
  induction n with
  | zero =>
    intro r hr
    simp only [max_retries] at hr
    rw [check_one]
    rcases hc : c r with o | _ | cl <;> simp [hc, max_retries]
    have hge : ¬ r < 3 := by omega
    simp [hge]
  | succ n ih =>
    intro r hr
    simp only [max_retries] at hr
    rw [check_one]
    rcases hc : c r with o | _ | cl <;> simp [hc, max_retries]
    by_cases hlt : r < 3
    · have hih := ih (r + 1) (by simp only [max_retries]; omega)
      simp only [max_retries] at hih
      simp [hlt]
      omega
    · simp [hlt]

/-- C3: a crash-class fetch failure is retried at most `max_retries = 3`
times, with backoff sleeps `2 ^ attempt` seconds; crashes on attempts 1 and
2 followed by success yield the observation after sleeps `[1, 2]`;
persistent crashes exhaust the retries after sleeps `[1, 2, 4]` and surface
the crash failure, which the caller absorbs without touching the state. -/
theorem crash_retry_schedule (a b c : Nat → AttemptResult) (o : Observation)
    (state : StateMap) (item : Target)
    (h0 : a 0 = .crash) (h1 : a 1 = .crash) (h2 : a 2 = .ok o)
    (hb : ∀ n, b n = .crash) :
    check_one a 0 = (.ok o, [1, 2]) ∧
    check_one b 0 = (.error .crash, [1, 2, 4]) ∧
    (check_one c 0).2.length ≤ max_retries ∧
    processTarget state item (.failure .crash) = ⟨state, false, false, []⟩ := by
  have e2 : check_one a 2 = (.ok o, []) := by
    rw [check_one, h2]
  have e1 : check_one a 1 = (.ok o, [2]) := by
    rw [check_one, h1]
    simp [max_retries, e2]
  have e0 : check_one a 0 = (.ok o, [1, 2]) := by
    rw [check_one, h0]
    simp [max_retries, e1]
  have f3 : check_one b 3 = (.error .crash, []) := by
    rw [check_one, hb 3]
    simp [max_retries]
  have f2 : check_one b 2 = (.error .crash, [4]) := by
    rw [check_one, hb 2]
    simp [max_retries, f3]
  have f1 : check_one b 1 = (.error .crash, [2, 4]) := by
    rw [check_one, hb 1]
    simp [max_retries, f2]
  have f0 : check_one b 0 = (.error .crash, [1, 2, 4]) := by
    rw [check_one, hb 0]
    simp [max_retries, f1]
  refine ⟨e0, f0, ?_, rfl⟩
  have := check_one_sleeps_le c (max_retries - 0) 0 (le_refl _)
  omega

/-- Witness for C3: crashes on the first two attempts, success on the
third. -/
theorem crash_retry_schedule_witness :
    check_one (fun n => if n < 2 then .crash
      else .ok ⟨"u", "t1", ["X"], [], "h1", "s1"⟩) 0 =
      (.ok ⟨"u", "t1", ["X"], [], "h1", "s1"⟩, [1, 2]) ∧
    check_one (fun _ => .crash) 0 = (.error .crash, [1, 2, 4]) ∧
    (check_one (fun _ => .crash) 0).2.length ≤ max_retries ∧
    processTarget [] ⟨"u", ["X"], [], "n"⟩ (.failure .crash) =
      ⟨[], false, false, []⟩ :=
  crash_retry_schedule
    (fun n => if n < 2 then .crash else .ok ⟨"u", "t1", ["X"], [], "h1", "s1"⟩)
    (fun _ => .crash) (fun _ => .crash) ⟨"u", "t1", ["X"], [], "h1", "s1"⟩
    [] ⟨"u", ["X"], [], "n"⟩ rfl rfl rfl (fun _ => rfl)

/-! ## C4 — when is the state persisted? -/

/-- C4 counterexample: a successful evaluation whose found-marker pair
equals the previous observation's pair (here only timestamp, hash and
snippet differ) performs no `save_state` call and leaves the persisted entry
at the old observation — refuting "after every successful
fetch-and-evaluation the state entry is immediately updated and saved". -/
theorem unchanged_pair_not_persisted_cex :
    (⟨"u", "t2", ["X"], [], "h2", "s2"⟩ : Observation) ≠
      ⟨"u", "t1", ["X"], [], "h1", "s1"⟩ ∧
    processTarget [("u", ⟨"u", "t1", ["X"], [], "h1", "s1"⟩)]
        ⟨"u", ["X"], [], "n"⟩
        (.success ⟨"u", "t2", ["X"], [], "h2", "s2"⟩ .ok) =
      ⟨[("u", ⟨"u", "t1", ["X"], [], "h1", "s1"⟩)], false, false, []⟩ ∧
    lookupState [("u", ⟨"u", "t1", ["X"], [], "h1", "s1"⟩)] "u" =
      some ⟨"u", "t1", ["X"], [], "h1", "s1"⟩ := by
  decide

/-- C4 (amended): for a target with a previous persisted observation, a
successful evaluation updates the entry and saves the state immediately
(one `save_state` within the target's own step) precisely in the changed
cases: an unchanged found-marker pair performs no update and no save, and a
changed pair updates and saves provided no uncaught evidence-capture
failure aborted the target. -/
theorem state_saved_iff_pair_changed (state : StateMap) (item : Target)
    (res prev : Observation) (ev : EvidenceOutcome)
    (h : lookupState state item.url = some prev) :
    ((prev.found_disappears = res.found_disappears ∧
      prev.found_appears = res.found_appears) →
      processTarget state item (.success res ev) = ⟨state, false, false, []⟩) ∧
    ((prev.found_disappears ≠ res.found_disappears ∨
      prev.found_appears ≠ res.found_appears) →
      ((processTarget state item (.success res ev)).alert = true →
        evidenceSurvives ev = true) →
      (processTarget state item (.success res ev)).state =
        insertState state item.url res ∧
      (processTarget state item (.success res ev)).writes =
        [insertState state item.url res]) := by
  constructor
  · rintro ⟨h1, h2⟩
    simp [processTarget, h, h1, h2]
  · intro hch hev
    have hc : (decide (prev.found_disappears ≠ res.found_disappears) ||
        decide (prev.found_appears ≠ res.found_appears)) = true := by
      rcases hch with h' | h' <;> simp [h']
    have heq : processTarget state item (.success res ev) =
        (if should_alert item.search_text_disappears item.search_text_appears
              prev.found_disappears prev.found_appears
              res.found_disappears res.found_appears &&
            !(evidenceSurvives ev) then
          ⟨state,
           should_alert item.search_text_disappears item.search_text_appears
             prev.found_disappears prev.found_appears
             res.found_disappears res.found_appears, false, []⟩
        else
          ⟨insertState state item.url res,
           should_alert item.search_text_disappears item.search_text_appears
             prev.found_disappears prev.found_appears
             res.found_disappears res.found_appears,
           should_alert item.search_text_disappears item.search_text_appears
             prev.found_disappears prev.found_appears
             res.found_disappears res.found_appears,
           [insertState state item.url res]⟩) := by
      simp only [processTarget, h, should_alert]
      rw [if_pos hc]
    rw [heq] at hev ⊢
    rcases hA : should_alert item.search_text_disappears
        item.search_text_appears prev.found_disappears prev.found_appears
        res.found_disappears res.found_appears with _ | _
    · simp
    · rcases hsurv : evidenceSurvives ev with _ | _
      · rw [hA, hsurv] at hev
        simp at hev
      · simp

/-- Witness for C4 (amended): unchanged pair versus changed pair on a
concrete state. -/
theorem state_saved_iff_pair_changed_witness :
    (((["X"] : List String) = ["X"] ∧ ([] : List String) = []) →
      processTarget [("u", ⟨"u", "t1", ["X"], [], "h1", "s1"⟩)]
          ⟨"u", ["X"], [], "n"⟩
          (.success ⟨"u", "t2", ["X"], [], "h2", "s2"⟩ .ok) =
        ⟨[("u", ⟨"u", "t1", ["X"], [], "h1", "s1"⟩)], false, false, []⟩) ∧
    (((["X"] : List String) ≠ ["X"] ∨ ([] : List String) ≠ []) →
      ((processTarget [("u", ⟨"u", "t1", ["X"], [], "h1", "s1"⟩)]
          ⟨"u", ["X"], [], "n"⟩
          (.success ⟨"u", "t2", ["X"], [], "h2", "s2"⟩ .ok)).alert = true →
        evidenceSurvives .ok = true) →
      (processTarget [("u", ⟨"u", "t1", ["X"], [], "h1", "s1"⟩)]
          ⟨"u", ["X"], [], "n"⟩
          (.success ⟨"u", "t2", ["X"], [], "h2", "s2"⟩ .ok)).state =
        insertState [("u", ⟨"u", "t1", ["X"], [], "h1", "s1"⟩)] "u"
          ⟨"u", "t2", ["X"], [], "h2", "s2"⟩ ∧
      (processTarget [("u", ⟨"u", "t1", ["X"], [], "h1", "s1"⟩)]
          ⟨"u", ["X"], [], "n"⟩
          (.success ⟨"u", "t2", ["X"], [], "h2", "s2"⟩ .ok)).writes =
        [insertState [("u", ⟨"u", "t1", ["X"], [], "h1", "s1"⟩)] "u"
          ⟨"u", "t2", ["X"], [], "h2", "s2"⟩]) :=
  state_saved_iff_pair_changed
    [("u", ⟨"u", "t1", ["X"], [], "h1", "s1"⟩)] ⟨"u", ["X"], [], "n"⟩
    ⟨"u", "t2", ["X"], [], "h2", "s2"⟩ ⟨"u", "t1", ["X"], [], "h1", "s1"⟩
    .ok (by decide)

/-! ## C5 — evidence-capture failures versus the alert notification -/

/-- C5: on a firing alert, screenshot failures of the caught classes
(`OSError`, timeouts, `PlaywrightError`) are absorbed and the notification
is still sent — but an `OSError` raised by `os.makedirs("/data/screens",
exist_ok=True)`, which sits before the evidence `try` block, propagates to
the per-target handler: the alert notification is never sent and the state
is not updated, although the alert condition fired. -/
theorem makedirs_failure_suppresses_alert :
    (processTarget [("u", ⟨"u", "t1", ["X"], [], "h1", "s1"⟩)]
        ⟨"u", ["X"], [], "n"⟩
        (.success ⟨"u", "t2", [], [], "h2", "s2"⟩ .makedirsFail)) =
      ⟨[("u", ⟨"u", "t1", ["X"], [], "h1", "s1"⟩)], true, false, []⟩ ∧
    (processTarget [("u", ⟨"u", "t1", ["X"], [], "h1", "s1"⟩)]
        ⟨"u", ["X"], [], "n"⟩
        (.success ⟨"u", "t2", [], [], "h2", "s2"⟩
          (.screenshotFail .osError))).notified = true ∧
    (processTarget [("u", ⟨"u", "t1", ["X"], [], "h1", "s1"⟩)]
        ⟨"u", ["X"], [], "n"⟩
        (.success ⟨"u", "t2", [], [], "h2", "s2"⟩
          (.screenshotFail .playwrightError))).notified = true ∧
    (processTarget [("u", ⟨"u", "t1", ["X"], [], "h1", "s1"⟩)]
        ⟨"u", ["X"], [], "n"⟩
        (.success ⟨"u", "t2", [], [], "h2", "s2"⟩ .ok)).notified = true := by
  decide

/-! ## C8 — atomic persistence via temp file and rename -/

/-- Removing one path does not affect lookups of another. -/
theorem getFile_removeFile_ne (d : Disk) (p q : String) (h : q ≠ p) :
    getFile (removeFile d p) q = getFile d q := by
  induction d with
  | nil => rfl
  | cons e tl ih =>
    rcases e with ⟨a, c⟩
    simp only [removeFile, List.filter_cons, decide_not] at ih ⊢
    by_cases hap : a = p
    · subst hap
      simp [getFile, ih, Ne.symm h]
    · by_cases haq : a = q
      · subst haq
        simp [getFile, hap]
      · simp [getFile, hap, haq, ih]

/-- After `setFile d p c`, the file at `p` reads back as `c`. -/
theorem getFile_setFile_self (d : Disk) (p c : String) :
    getFile (setFile d p c) p = some c := by
  simp [setFile, getFile]

/-- `setFile` at one path does not affect lookups of another. -/
theorem getFile_setFile_ne (d : Disk) (p c q : String) (h : q ≠ p) :
    getFile (setFile d p c) q = getFile d q := by
  simp only [setFile, getFile]
  rw [if_neg (Ne.symm h)]
  exact getFile_removeFile_ne d p q h

/-- A path never equals itself with the `.tmp` suffix appended. -/
theorem stateFile_ne_tmp (sf : String) : sf ≠ sf ++ ".tmp" := by
  intro habs
  have hlen := congrArg String.length habs
  rw [String.length_append] at hlen
  have h4 : ".tmp".length = 4 := by decide
  omega

/-- C8: at every observable moment of `save_state` — before anything, during
the (possibly partial) write of the temp file, between the write and the
rename, and after the atomic rename — the state file holds either its
previous content or the complete new serialization, never a partial one. -/
theorem save_state_atomic (sf j : String) (d0 d : Disk)
    (h : MidState d0 (save_state_ops sf j) d) :
    getFile d sf = getFile d0 sf ∨ getFile d sf = some j := by
  have hne : sf ≠ sf ++ ".tmp" := stateFile_ne_tmp sf
  simp only [save_state_ops] at h
  rcases h with _ | ⟨_, _, _, t, _, hpre⟩ | ⟨_, _, _, _, h2⟩
  · exact Or.inl rfl
  · exact Or.inl (getFile_setFile_ne d0 (sf ++ ".tmp") t sf hne)
  · rcases h2 with _ | ⟨_, p2, c2, t2, rest2, hpre2⟩ | ⟨_, _, _, _, h3⟩
    · exact Or.inl
        (getFile_setFile_ne d0 (sf ++ ".tmp") j sf hne)
    · cases h3
      right
      simp only [applyOp, renameFile, getFile_setFile_self]

/-- Witness for C8: a concrete run of `save_state` over a disk holding an
old state, observed after the final rename. -/
theorem save_state_atomic_witness :
    getFile [("tm_state.json", "new")] "tm_state.json" =
      getFile [("tm_state.json", "old")] "tm_state.json" ∨
    getFile [("tm_state.json", "new")] "tm_state.json" = some "new" :=
  save_state_atomic "tm_state.json" "new" [("tm_state.json", "old")]
    [("tm_state.json", "new")]
    (MidState.step _ _ _ _ (MidState.step _ _ _ _ (MidState.before _ _)))

/-! ## C9 — missing or corrupt state file loads as empty -/

/-- C9: `load_state` returns the empty map when the state file is absent
(`FileNotFoundError`) or when its content does not parse as JSON
(`json.JSONDecodeError`); being a total function, it raises nothing, and
startup proceeds with the empty previous state. -/
theorem load_state_missing_or_corrupt (d : Disk)
    (parse : String → Option StateMap) (sf content : String) :
    (getFile d sf = none → load_state d parse sf = []) ∧
    (getFile d sf = some content → parse content = none →
      load_state d parse sf = []) := by
  constructor
  · intro h
    simp [load_state, h]
  · intro h hp
    simp [load_state, h, hp]

/-- Witness for C9: an absent file and an unparseable file both load as the
empty state. -/
theorem load_state_missing_or_corrupt_witness :
    load_state [] (fun _ => none) "tm_state.json" = [] ∧
    load_state [("tm_state.json", "not json")] (fun _ => none)
      "tm_state.json" = [] :=
  ⟨(load_state_missing_or_corrupt [] (fun _ => none) "tm_state.json"
      "x").1 rfl,
   (load_state_missing_or_corrupt [("tm_state.json", "not json")]
      (fun _ => none) "tm_state.json" "not json").2 (by decide) rfl⟩

/-! ## C10 — old-format config keys take precedence -/

/-- C10: when a config item carries both the old-format keys (`search_text`
and `mode`) and a new-format key, `load_config` ignores the supplied
new-format values entirely (the result equals that of the item with the
new-format keys removed) and derives both lists from `search_text`/`mode`:
`mode: disappears` puts the `search_text` list into
`search_text_disappears` with an empty appears list, `mode: appears` the
other way around. -/
theorem old_format_precedence (it it2 : RawItem) (u u2 : String)
    (sl sl2 : YamlVal)
    (hu : it.url = some u) (hs : it.search_text = some sl)
    (hm : it.mode = some "disappears")
    (hnew : it.search_text_disappears.isSome = true ∨
            it.search_text_appears.isSome = true)
    (hne : (toTextList sl).isEmpty = false)
    (hu2 : it2.url = some u2) (hs2 : it2.search_text = some sl2)
    (hm2 : it2.mode = some "appears")
    (hnew2 : it2.search_text_disappears.isSome = true ∨
             it2.search_text_appears.isSome = true)
    (hne2 : (toTextList sl2).isEmpty = false) :
    normalizeItem it =
      normalizeItem { it with search_text_disappears := none,
                              search_text_appears := none } ∧
    normalizeItem it = .ok ⟨u, toTextList sl, [], it.note.getD ""⟩ ∧
    normalizeItem it2 = .ok ⟨u2, [], toTextList sl2, it2.note.getD ""⟩ := by
  refine ⟨?_, ?_, ?_⟩
  · simp [normalizeItem, hu, hs, hm]
  · simp [normalizeItem, hu, hs, hm, hne]
  · simp [normalizeItem, hu2, hs2, hm2, hne2]

/-- Witness for C10: a concrete item carrying both formats in each mode. -/
theorem old_format_precedence_witness :
    normalizeItem ⟨some "u", some (.str "Sold out"), some "disappears",
        some (.list ["X"]), some (.str "Y"), some "nn"⟩ =
      normalizeItem { (⟨some "u", some (.str "Sold out"), some "disappears",
          some (.list ["X"]), some (.str "Y"), some "nn"⟩ : RawItem) with
        search_text_disappears := none, search_text_appears := none } ∧
    normalizeItem ⟨some "u", some (.str "Sold out"), some "disappears",
        some (.list ["X"]), some (.str "Y"), some "nn"⟩ =
      .ok ⟨"u", toTextList (.str "Sold out"), [],
        (some "nn").getD ""⟩ ∧
    normalizeItem ⟨some "v", some (.list ["In stock", "Buy"]), some "appears",
        none, some (.str "Z"), none⟩ =
      .ok ⟨"v", [], toTextList (.list ["In stock", "Buy"]),
        (none : Option String).getD ""⟩ :=
  old_format_precedence
    ⟨some "u", some (.str "Sold out"), some "disappears",
      some (.list ["X"]), some (.str "Y"), some "nn"⟩
    ⟨some "v", some (.list ["In stock", "Buy"]), some "appears",
      none, some (.str "Z"), none⟩
    "u" "v" (.str "Sold out") (.list ["In stock", "Buy"])
    rfl rfl rfl (Or.inl rfl) rfl rfl rfl rfl (Or.inr rfl) rfl
